import Mathlib

/-!
Verification of the SMHI terminal weather client (smhi.py) against its
natural-language specification.  The Python functions relevant to the claims
are shallowly embedded below: JSON records become structures with Option
fields for possibly-missing keys, numbers become exact rationals, raised
exceptions become Except errors, and network fetches become explicit
outcome values passed to the embedded function.  Library calls whose exact
behaviour the program does not control (datetime.fromtimestamp,
datetime.fromisoformat rendering) are abstracted as function parameters.
-/

namespace SMHI

/-- A Python exception, as far as the embedded code distinguishes them. -/
inductive PyErr where
  | keyErr
  | indexErr
  | stopIter
  | valueErr
  | fetchErr
deriving DecidableEq

/-! ### Station catalog (MeteorologicalObservations.get_stations, smhi.py 188-212) -/

/-- One raw station record from the station-catalog JSON.  Each field is an
Option: `none` models the corresponding JSON key being absent.  The source
reads `active`, `height`, `latitude`, `longitude` with `station.get(...)`
(defaulting) and `key`, `name` with `station[...]` (raising KeyError). -/
structure RawStation where
  active : Option Bool
  key : Option String
  name : Option String
  height : Option ℚ
  latitude : Option ℚ
  longitude : Option ℚ
deriving DecidableEq

/-- A station dict as built by get_stations (smhi.py 199-206). -/
structure Station where
  key : String
  name : String
  active : Bool
  height : ℚ
  latitude : ℚ
  longitude : ℚ
deriving DecidableEq

/-- The filter condition `station.get("active", False)` (smhi.py 198). -/
def activeFlag (s : RawStation) : Bool := s.active.getD false

/-- Building the kept-station dict (smhi.py 199-206): `station["key"]` and
`station["name"]` raise KeyError when absent, the remaining fields default. -/
def buildStation (s : RawStation) : Except PyErr Station :=
  match s.key, s.name with
  | some k, some n =>
      .ok ⟨k, n, s.active.getD false, s.height.getD 0, s.latitude.getD 0, s.longitude.getD 0⟩
  | _, _ => .error .keyErr

/-- The station-collecting loop of get_stations (smhi.py 195-206): walk the
decoded station array, keep active stations, abort with the exception if a
kept record is malformed. -/
def collectStations : List RawStation → Except PyErr (List Station)
  | [] => .ok []
  | s :: rest =>
    if activeFlag s then
      match buildStation s with
      | .error e => .error e
      | .ok st => (collectStations rest).map (fun l => st :: l)
    else collectStations rest

/-- Ordering used by `sorted(stations, key=lambda x: x["name"])` (smhi.py 208). -/
def stationNameLe (a b : Station) : Prop := a.name ≤ b.name

instance : DecidableRel stationNameLe :=
  fun a b => inferInstanceAs (Decidable (a.name ≤ b.name))

instance : IsTotal Station stationNameLe := ⟨fun a b => le_total a.name b.name⟩

instance : IsTrans Station stationNameLe := ⟨fun _ _ _ hab hbc => le_trans hab hbc⟩

/-- get_stations (smhi.py 188-212).  The argument is the outcome of the
fetch: `.error` models the GET raising, `.ok raws` a decoded response whose
station array is `raws` (`data.get("station", [])` makes a missing array
the empty list).  The surrounding try/except turns any exception into the
empty list. -/
def get_stations (fetched : Except PyErr (List RawStation)) : List Station :=
  match fetched with
  | .error _ => []
  | .ok raws =>
    match collectStations raws with
    | .error _ => []
    | .ok sts => List.insertionSort stationNameLe sts

/-- A kept station as get_stations builds it from a well-formed record,
with the defaulted fields made explicit. -/
def defaultedStation (s : RawStation) : Station :=
  ⟨s.key.getD "", s.name.getD "", s.active.getD false,
    s.height.getD 0, s.latitude.getD 0, s.longitude.getD 0⟩

/-! ### Latest observation (MeteorologicalObservations.get_latest_weather, smhi.py 230-256) -/

/-- The decoded body of a period data fetch; `value` is the value array
(`data.get("value")`, with a missing array behaving as empty). -/
structure ObsPayload (V : Type) where
  value : List V
deriving DecidableEq

/-- One period tier of get_latest_weather (smhi.py 235-240 and 244-249):
a tier yields a measurement exactly when its fetch succeeded and its value
array is non-empty, and then yields the last element (`data["value"][-1]`).
A raised fetch is swallowed by the bare except. -/
def tierLatest {V : Type} (fetched : Except PyErr (ObsPayload V)) : Option V :=
  match fetched with
  | .error _ => none
  | .ok d => d.value.getLast?

/-- get_latest_weather (smhi.py 230-256): try the latest-hour tier, fall
back to the latest-day tier, and return None when both yield nothing. -/
def get_latest_weather {V : Type} (hour day : Except PyErr (ObsPayload V)) : Option V :=
  match tierLatest hour with
  | some v => some v
  | none =>
    match tierLatest day with
    | some v => some v
    | none => none

/-! ### Observation formatting (MeteorologicalObservations.format_weather_data, smhi.py 351-377) -/

/-- The raw value field of an observation record, as seen by float():
either coercible to a number (with its exact rational value and its raw
text) or not (float raises ValueError/TypeError). -/
inductive ObsValue where
  | coercible (q : ℚ) (raw : String)
  | nonCoercible (raw : String)
deriving DecidableEq

/-- How the raw value prints inside an f-string. -/
def ObsValue.rawText : ObsValue → String
  | .coercible _ r => r
  | .nonCoercible r => r

/-- An observation record: `date` is the epoch-millisecond timestamp,
`none` models the corresponding key being absent. -/
structure ObsRecord where
  date : Option ℤ
  value : Option ObsValue
deriving DecidableEq

/-- A parameter catalog entry of MeteorologicalObservations (smhi.py 146-152). -/
structure ObsParam where
  name : String
  id : String
  unit : String
  description : String
deriving DecidableEq

/-- The self.parameters table of MeteorologicalObservations (smhi.py 146-152),
as a lookup from menu key; `none` models a KeyError on subscripting. -/
def obsParameters (choice : String) : Option ObsParam :=
  if choice = "1" then
    some ⟨"Lufttemperatur momentanvärde, 1 gång/tim", "2", "°C", "Temperature"⟩
  else if choice = "2" then
    some ⟨"Lufttryck reducerat havsytans nivå", "9", "hPa", "Air pressure"⟩
  else if choice = "3" then
    some ⟨"Relativ Luftfuktighet momentanvärde, 1 gång/tim", "6", "%", "Relative humidity"⟩
  else if choice = "4" then
    some ⟨"Nederbördsmängd summa 1 timme, 1 gång/tim", "7", "mm", "Precipitation amount"⟩
  else if choice = "5" then
    some ⟨"Vindhastighet medelvärde 10 min, 1 gång/tim", "4", "m/s", "Wind speed"⟩
  else none

/-- Round the fraction a/b (with b positive) to the nearest integer,
ties to even: the rounding applied by a Python fixed-point format spec
to the exact value. -/
def roundHalfEvenFrac (a b : ℤ) : ℤ :=
  let z := Int.ediv a b
  let r := Int.emod a b
  if 2 * r < b then z
  else if b < 2 * r then z + 1
  else if Int.emod z 2 = 0 then z else z + 1

/-- One-decimal fixed-point rendering of an exact rational: the format
spec .1f of smhi.py 366, modelled on the exact value. -/
def pyFmtFixed1 (q : ℚ) : String :=
  let n := roundHalfEvenFrac (q.num * 10) (q.den : ℤ)
  (if n < 0 then "-" else "") ++ toString (n.natAbs / 10) ++ "." ++ toString (n.natAbs % 10)

/-- Zero-decimal fixed-point rendering of an exact rational: the format
spec .0f of smhi.py 368, modelled on the exact value. -/
def pyFmtFixed0 (q : ℚ) : String :=
  toString (roundHalfEvenFrac q.num (q.den : ℤ))

/-- Abstraction of Python str applied to the coerced float (smhi.py 370);
no theorem below depends on its exact rendering. -/
def pyStrNum (q : ℚ) : String := toString q

/-- The fallback line of format_weather_data (smhi.py 377): raw date and
value fields with .get defaults. -/
def fallbackText (data : ObsRecord) (p : ObsParam) : String :=
  (match data.date with
   | some d => toString d
   | none => "Unknown time") ++ ": " ++
  (match data.value with
   | some v => v.rawText
   | none => "No value") ++ " " ++ p.unit

/-- format_weather_data (smhi.py 351-377).  `fmtLocal` abstracts
`datetime.fromtimestamp(sec).strftime(...)`, the local-time rendering of a
second-valued epoch timestamp.  The result is `.error` when an exception
escapes the function, which happens exactly when the parameter choice is
not a catalog key (the except handler then raises KeyError itself). -/
def format_weather_data (fmtLocal : ℚ → String) (data : ObsRecord) (choice : String) :
    Except PyErr String :=
  let tryBody : Except PyErr String :=
    match data.date with
    | none => .error .keyErr
    | some d =>
      let ts := fmtLocal ((d : ℚ) / 1000)
      match data.value with
      | none => .error .keyErr
      | some v =>
        match v with
        | .nonCoercible raw =>
          match obsParameters choice with
          | none => .error .keyErr
          | some p => .ok (ts ++ ": " ++ raw ++ " " ++ p.unit)
        | .coercible q _ =>
          match obsParameters choice with
          | none => .error .keyErr
          | some p =>
            let fv :=
              if p.unit = "°C" ∨ p.unit = "m/s" ∨ p.unit = "mm" then pyFmtFixed1 q
              else if p.unit = "hPa" then pyFmtFixed0 q
              else pyStrNum q
            .ok (ts ++ ": " ++ fv ++ " " ++ p.unit)
  match tryBody with
  | .ok s => .ok s
  | .error _ =>
    match obsParameters choice with
    | none => .error .keyErr
    | some p => .ok (fallbackText data p)

/-! ### Favorites toggle (MeteorologicalObservations.display_stations, smhi.py 322-336) -/

/-- The favorite-toggle branch of display_stations (smhi.py 322-336), acting
on the favorites dict (modelled as a key-unique insertion-ordered
association list).  Returns the new favorites and whether save_favorites
was called.  An id matching no displayed station is rejected with no state
change and no save. -/
def toggle_favorite (stations : List Station) (favs : List (String × String))
    (favId : String) : List (String × String) × Bool :=
  match stations.find? (fun s => s.key == favId) with
  | none => (favs, false)
  | some st =>
    if favs.any (fun kv => kv.1 == favId) then
      (favs.eraseP (fun kv => kv.1 == favId), true)
    else
      (favs ++ [(favId, st.name)], true)

/-! ### Analysis formatting (MeteorologicalAnalysis.format_analysis_data, smhi.py 465-488) -/

/-- One named parameter entry of a forecast/analysis timestep. -/
structure PEntry where
  name : String
  values : List ℚ
deriving DecidableEq

/-- One timestep of a forecast/analysis time series. -/
structure TimeStep where
  validTime : String
  parameters : List PEntry
deriving DecidableEq

/-- A parameter catalog entry of MeteorologicalAnalysis (smhi.py 450-458). -/
structure AnaParam where
  name : String
  description : String
  unit : String
  level_type : String
  level : ℤ
deriving DecidableEq

/-- The self.parameters table of MeteorologicalAnalysis (smhi.py 450-458). -/
def anaParameters (choice : String) : Option AnaParam :=
  if choice = "1" then some ⟨"t", "Temperature", "°C", "hl", 2⟩
  else if choice = "2" then some ⟨"gust", "Wind gust", "m/s", "hl", 10⟩
  else if choice = "3" then some ⟨"r", "Relative humidity", "%", "hl", 2⟩
  else if choice = "4" then some ⟨"msl", "Air pressure", "hPa", "hmsl", 0⟩
  else if choice = "5" then some ⟨"vis", "Visibility", "km", "hl", 2⟩
  else if choice = "6" then some ⟨"ws", "Wind speed", "m/s", "hl", 10⟩
  else if choice = "7" then some ⟨"wd", "Wind direction", "degree", "hl", 10⟩
  else none

/-- The single-character replacement `validTime.replace("Z", "+00:00")`
(smhi.py 472 and 102), written structurally so it evaluates. -/
def replaceZulu (s : String) : String :=
  ⟨s.data.foldr
    (fun c acc => if c = 'Z' then '+' :: '0' :: '0' :: ':' :: '0' :: '0' :: acc else c :: acc)
    []⟩

/-- One formatted analysis entry (smhi.py 482-486); DT is the type of the
parsed timestamp (datetime is abstracted). -/
structure AnaEntry (DT : Type) where
  timestamp : DT
  value : ℚ
  unit : String
deriving DecidableEq

/-- The per-timestep loop of format_analysis_data (smhi.py 471-486):
parse the timestamp, look up the chosen parameter by name, skip the
timestep when absent, and otherwise take values[0], which raises
IndexError on an empty values array. -/
def formatAnalysisSteps {DT : Type} (parseTime : String → DT) (pname punit : String) :
    List TimeStep → Except PyErr (List (AnaEntry DT))
  | [] => .ok []
  | ts :: rest =>
    let timestamp := parseTime (replaceZulu ts.validTime)
    match ts.parameters.find? (fun p => p.name == pname) with
    | none => formatAnalysisSteps parseTime pname punit rest
    | some p =>
      match p.values.head? with
      | none => .error .indexErr
      | some v =>
        (formatAnalysisSteps parseTime pname punit rest).map
          (fun l => ⟨timestamp, v, punit⟩ :: l)

/-- The decoded analysis response, reduced to the field the formatting
reads (`data.get("timeSeries", [])`). -/
structure AnalysisData where
  timeSeries : List TimeStep
deriving DecidableEq

/-- format_analysis_data (smhi.py 465-488).  `parseTime` abstracts
datetime.fromisoformat.  Subscripting self.parameters with an unknown
choice raises KeyError (smhi.py 468). -/
def format_analysis_data {DT : Type} (parseTime : String → DT) (data : AnalysisData)
    (choice : String) : Except PyErr (List (AnaEntry DT)) :=
  match anaParameters choice with
  | none => .error .keyErr
  | some pinfo => formatAnalysisSteps parseTime pinfo.name pinfo.unit data.timeSeries

/-! ### Forecast display (SMHIMultiService.show_met_forecasts, smhi.py 90-104) -/

/-- The decoded forecast response, reduced to the field the display reads
(`forecast["timeSeries"]`). -/
structure Forecast where
  timeSeries : List TimeStep
deriving DecidableEq

/-- The temperature extraction of smhi.py 103:
`next(p["values"][0] for p in time_series["parameters"] if p["name"] == "t")`.
No default is given to next, so a timestep without a parameter named t
raises StopIteration; a t entry with an empty values array raises
IndexError. -/
def extractTempValue (ts : TimeStep) : Except PyErr ℚ :=
  match ts.parameters.find? (fun p => p.name == "t") with
  | none => .error .stopIter
  | some p =>
    match p.values.head? with
    | none => .error .indexErr
    | some v => .ok v

/-- The display loop body over a list of timesteps (smhi.py 101-104),
collecting the printed (timestamp, temperature) rows; the first raising
timestep aborts the walk with its exception. -/
def forecastRows {DT : Type} (fmtTime : String → DT) :
    List TimeStep → Except PyErr (List (DT × ℚ))
  | [] => .ok []
  | ts :: rest =>
    let t := fmtTime (replaceZulu ts.validTime)
    match extractTempValue ts with
    | .error e => .error e
    | .ok v => (forecastRows fmtTime rest).map (fun l => (t, v) :: l)

/-- The forecast display path of show_met_forecasts (smhi.py 101-104):
walk `forecast["timeSeries"][:24]` only. -/
def show_met_forecasts {DT : Type} (fmtTime : String → DT) (fc : Forecast) :
    Except PyErr (List (DT × ℚ)) :=
  forecastRows fmtTime (fc.timeSeries.take 24)

/-! ### Manual location entry (LocationUtil.get_manual_location, smhi.py 612-627) -/

/-- One line of user input as float() sees it: a numeric literal with its
exact rational value, or text on which float raises ValueError. -/
inductive Inp where
  | num (q : ℚ)
  | bad
deriving DecidableEq

/-- get_manual_location (smhi.py 612-627) run against a finite script of
input lines; `none` models the loop still prompting when the script is
exhausted.  A non-numeric or out-of-range latitude restarts the iteration;
a non-numeric or out-of-range longitude likewise restarts it at the
latitude prompt. -/
def get_manual_location : List Inp → Option (ℚ × ℚ)
  | [] => none
  | .bad :: rest => get_manual_location rest
  | .num lat :: rest =>
    if -90 ≤ lat ∧ lat ≤ 90 then
      match rest with
      | [] => none
      | .bad :: rest2 => get_manual_location rest2
      | .num lon :: rest2 =>
        if -180 ≤ lon ∧ lon ≤ 180 then some (lat, lon)
        else get_manual_location rest2
    else get_manual_location rest

/-! ### HTTP fetch (SMHIBaseService.fetch_data, smhi.py 42-55) -/

/-- The outcome of the single requests.get call: a transport failure
(requests raising before a response exists) or a response with a status
code, a raw payload, and the JSON decode of that payload when it is
well-formed.  J is the type of decoded JSON documents. -/
inductive HttpOutcome (J : Type) where
  | transportFail (msg : String)
  | response (status : ℕ) (content : String) (decoded : Option J)
deriving DecidableEq

/-- The exception escaping fetch_data, carrying its cause. -/
inductive FetchErr where
  | transport (msg : String)
  | httpStatus (code : ℕ)
  | jsonDecode
deriving DecidableEq

/-- A successful fetch result: a decoded JSON document, or the raw payload
when the binary flag was set. -/
inductive FetchResult (J : Type) where
  | json (val : J)
  | raw (content : String)
deriving DecidableEq

/-- response.raise_for_status() (smhi.py 47): the requests library raises
HTTPError exactly for status codes 400-599. -/
def raise_for_status (status : ℕ) : Except FetchErr Unit :=
  if 400 ≤ status ∧ status < 600 then .error (.httpStatus status) else .ok ()

/-- fetch_data (smhi.py 42-55).  The first component counts the GET
requests issued: the body calls requests.get exactly once and has no retry
path.  Any requests exception (transport failure, raise_for_status,
undecodable JSON body) is re-raised to the caller by the bare raise. -/
def fetch_data {J : Type} (outcome : HttpOutcome J) (isBin : Bool) :
    ℕ × Except FetchErr (FetchResult J) :=
  (1,
    match outcome with
    | .transportFail msg => .error (.transport msg)
    | .response status content decoded =>
      match raise_for_status status with
      | .error e => .error e
      | .ok _ =>
        if isBin then .ok (.raw content)
        else
          match decoded with
          | none => .error .jsonDecode
          | some j => .ok (.json j))

/-- Whether a modelled Python call returned normally (no exception escaped). -/
def isOk {ε α : Type} : Except ε α → Bool
  | .ok _ => true
  | .error _ => false

/-! ### Concrete values used by witnesses and counterexamples -/

/-- A well-formed active raw station record with the defaultable fields absent. -/
def c1raw : RawStation := ⟨some true, some "159880", some "Arvidsjaur", none, none, none⟩

/-- The station get_stations builds from c1raw. -/
def c1st : Station := ⟨"159880", "Arvidsjaur", true, 0, 0, 0⟩

/-- An active raw station record lacking the key field. -/
def c9rawNoKey : RawStation := ⟨some true, none, some "Nameless", none, none, none⟩

/-- An active raw station record with height, latitude and longitude absent. -/
def c9raw : RawStation := ⟨some true, some "188790", some "Abisko", none, none, none⟩

/-- A displayed station used by the C4 toggle witnesses. -/
def c4st : Station := ⟨"103080", "Abisko Aut", true, 0, 0, 0⟩

/-- A displayed station used by the C10 toggle witness. -/
def c10st : Station := ⟨"97100", "Frufällan", true, 0, 0, 0⟩

/-- An analysis timestep carrying a t entry. -/
def c5step (t : String) : TimeStep := ⟨t, [⟨"t", [1]⟩, ⟨"ws", [2]⟩]⟩

/-- An analysis timestep lacking a t entry. -/
def c5stepNoT (t : String) : TimeStep := ⟨t, [⟨"ws", [2]⟩]⟩

/-- Five timesteps of which exactly one lacks the t parameter. -/
def c5scenario : AnalysisData :=
  ⟨[c5step "2024-01-01T00:00:00Z", c5step "2024-01-01T01:00:00Z",
    c5stepNoT "2024-01-01T02:00:00Z", c5step "2024-01-01T03:00:00Z",
    c5step "2024-01-01T04:00:00Z"]⟩

/-- One timestep whose t entry has an empty values array. -/
def c5empty : AnalysisData := ⟨[⟨"2024-01-01T00:00:00Z", [⟨"t", []⟩]⟩]⟩

/-- A forecast timestep with no parameters at all. -/
def c6step : TimeStep := ⟨"2026-01-01T00:00:00Z", []⟩

/-! ### Helper lemmas -/

theorem buildStation_active (s : RawStation) (st : Station)
    (h : buildStation s = Except.ok st) : st.active = activeFlag s := by
  unfold buildStation at h
  cases hk : s.key with
  | none => rw [hk] at h; exact absurd h (by simp)
  | some k =>
    cases hn : s.name with
    | none => rw [hk, hn] at h; exact absurd h (by simp)
    | some n =>
      rw [hk, hn] at h
      cases h
      rfl

theorem collectStations_mem_active :
    ∀ (raws : List RawStation) (sts : List Station),
      collectStations raws = Except.ok sts → ∀ s ∈ sts, s.active = true := by
  intro raws
  induction raws with
  | nil =>
    intro sts h s hs
    simp only [collectStations] at h
    cases h
    simp at hs
  | cons hd tl ih =>
    intro sts h s hs
    by_cases hact : activeFlag hd
    · simp only [collectStations, hact, if_true] at h
      cases hb : buildStation hd with
      | error e => rw [hb] at h; exact absurd h (by simp)
      | ok st =>
        rw [hb] at h
        cases hc : collectStations tl with
        | error e => rw [hc] at h; exact absurd h (by simp [Except.map])
        | ok l =>
          rw [hc] at h
          simp only [Except.map] at h
          cases h
          rcases List.mem_cons.mp hs with rfl | hmem
          · rw [buildStation_active hd s hb, hact]
          · exact ih l hc s hmem
    · simp only [collectStations, hact, if_false] at h
      exact ih sts h s hs

theorem collectStations_error_of_malformed :
    ∀ (raws : List RawStation) (s : RawStation), s ∈ raws → activeFlag s = true →
      s.key = none ∨ s.name = none → ∃ e, collectStations raws = Except.error e := by
  intro raws
  induction raws with
  | nil => simp
  | cons hd tl ih =>
    intro s hs hact hmal
    rcases List.mem_cons.mp hs with rfl | hmem
    · have hb : buildStation s = Except.error PyErr.keyErr := by
        cases hk : s.key with
        | none => simp [buildStation, hk]
        | some k =>
          rcases hmal with h | h
          · rw [hk] at h; cases h
          · simp [buildStation, hk, h]
      exact ⟨PyErr.keyErr, by simp [collectStations, hact, hb]⟩
    · obtain ⟨e, he⟩ := ih s hmem hact hmal
      by_cases hact2 : activeFlag hd
      · cases hb : buildStation hd with
        | error e2 => exact ⟨e2, by simp [collectStations, hact2, hb]⟩
        | ok st => exact ⟨e, by simp [collectStations, hact2, hb, he, Except.map]⟩
      · exact ⟨e, by simp [collectStations, hact2, he]⟩

theorem collectStations_ok_of_wf :
    ∀ raws : List RawStation,
      (∀ s ∈ raws, activeFlag s = true → s.key.isSome ∧ s.name.isSome) →
      collectStations raws = Except.ok ((raws.filter activeFlag).map defaultedStation) := by
  intro raws
  induction raws with
  | nil => intro _; rfl
  | cons hd tl ih =>
    intro hwf
    have htl := fun s hs => hwf s (List.mem_cons_of_mem hd hs)
    by_cases hact : activeFlag hd
    · obtain ⟨hk, hn⟩ := hwf hd (List.mem_cons_self hd tl) hact
      obtain ⟨k, hk⟩ := Option.isSome_iff_exists.mp hk
      obtain ⟨n, hn⟩ := Option.isSome_iff_exists.mp hn
      have hb : buildStation hd = Except.ok (defaultedStation hd) := by
        simp [buildStation, hk, hn, defaultedStation]
      simp [collectStations, hact, hb, ih htl, Except.map, List.filter_cons, defaultedStation]
    · simp [collectStations, hact, ih htl, List.filter_cons]

/-! ### Claim theorems -/

/-- Claim C1: every station returned by get_stations is active, the list is
sorted ascending by station name, and on a fetch failure or a decode
failure the result is the empty list (no exception escapes, the function
is total). -/
theorem c1_get_stations_active_sorted_total :
    (∀ fetched, List.Sorted stationNameLe (get_stations fetched)) ∧
    (∀ fetched s, s ∈ get_stations fetched → s.active = true) ∧
    (∀ e, get_stations (Except.error e) = []) ∧
    (∀ raws e, collectStations raws = Except.error e →
      get_stations (Except.ok raws) = []) := by
  refine ⟨?_, ?_, fun e => rfl, ?_⟩
  · intro fetched
    cases fetched with
    | error e => simp [get_stations]
    | ok raws =>
      cases hc : collectStations raws with
      | error e => simp [get_stations, hc]
      | ok sts =>
        simpa [get_stations, hc] using List.sorted_insertionSort stationNameLe sts
  · intro fetched s hs
    cases fetched with
    | error e => simp [get_stations] at hs
    | ok raws =>
      cases hc : collectStations raws with
      | error e => rw [get_stations, hc] at hs; simp at hs
      | ok sts =>
        rw [get_stations, hc] at hs
        exact collectStations_mem_active raws sts hc s
          ((List.perm_insertionSort stationNameLe sts).mem_iff.mp hs)
  · intro raws e hc
    simp [get_stations, hc]

/-- Witness for C1 at a one-station catalog and at a failed fetch. -/
theorem c1_witness :
    c1st ∈ get_stations (Except.ok [c1raw]) ∧
    c1st.active = true ∧
    List.Sorted stationNameLe (get_stations (Except.ok [c1raw])) ∧
    get_stations (Except.error PyErr.fetchErr) = [] := by
  have hmem : c1st ∈ get_stations (Except.ok [c1raw]) := by decide
  exact ⟨hmem, c1_get_stations_active_sorted_total.2.1 _ c1st hmem,
    c1_get_stations_active_sorted_total.1 _,
    c1_get_stations_active_sorted_total.2.2.1 PyErr.fetchErr⟩

/-- Claim C9: get_stations silently defaults a kept station's missing
height, latitude and longitude to 0 (made explicit by defaultedStation),
and one active record lacking the key or name field discards the whole
catalog: the result is the empty list. -/
theorem c9_get_stations_defaults_and_abort :
    (∀ raws s, s ∈ raws → activeFlag s = true → s.key = none ∨ s.name = none →
      get_stations (Except.ok raws) = []) ∧
    (∀ raws, (∀ s ∈ raws, activeFlag s = true → s.key.isSome ∧ s.name.isSome) →
      get_stations (Except.ok raws) =
        List.insertionSort stationNameLe ((raws.filter activeFlag).map defaultedStation)) := by
  constructor
  · intro raws s hs hact hmal
    obtain ⟨e, he⟩ := collectStations_error_of_malformed raws s hs hact hmal
    simp [get_stations, he]
  · intro raws hwf
    simp [get_stations, collectStations_ok_of_wf raws hwf]

/-- Witness for C9: a keyless active record discards the catalog, and a
kept station has its absent height, latitude and longitude as 0. -/
theorem c9_witness :
    get_stations (Except.ok [c9rawNoKey]) = [] ∧
    get_stations (Except.ok [c9raw]) =
      List.insertionSort stationNameLe (([c9raw].filter activeFlag).map defaultedStation) ∧
    defaultedStation c9raw = ⟨"188790", "Abisko", true, 0, 0, 0⟩ := by
  refine ⟨c9_get_stations_defaults_and_abort.1 [c9rawNoKey] c9rawNoKey (by decide) rfl
      (Or.inl rfl),
    c9_get_stations_defaults_and_abort.2 [c9raw] (by decide), by decide⟩

/-- Claim C2: get_latest_weather returns the last element of the
latest-hour value list when that fetch succeeds non-empty, otherwise
behaves as the latest-day tier (a tier yields nothing exactly when its
fetch raised or its value list is empty), and returns none when both
tiers yield nothing. -/
theorem c2_latest_weather_tiering :
    (∀ (V : Type) (d : ObsPayload V) (day : Except PyErr (ObsPayload V)) (v : V),
      d.value.getLast? = some v → get_latest_weather (Except.ok d) day = some v) ∧
    (∀ (V : Type) (e : PyErr),
      tierLatest (Except.error e : Except PyErr (ObsPayload V)) = none) ∧
    (∀ (V : Type) (d : ObsPayload V),
      tierLatest (Except.ok d) = d.value.getLast?) ∧
    (∀ (V : Type) (hour day : Except PyErr (ObsPayload V)),
      tierLatest hour = none → get_latest_weather hour day = tierLatest day) ∧
    (∀ (V : Type) (hour day : Except PyErr (ObsPayload V)),
      tierLatest hour = none → tierLatest day = none →
      get_latest_weather hour day = none) := by
  refine ⟨?_, fun V e => rfl, fun V d => rfl, ?_, ?_⟩
  · intro V d day v h
    simp [get_latest_weather, tierLatest, h]
  · intro V hour day h
    cases hd : tierLatest day with
    | none => simp [get_latest_weather, h, hd]
    | some v => simp [get_latest_weather, h, hd]
  · intro V hour day h1 h2
    simp [get_latest_weather, h1, h2]

/-- Witness for C2 at concrete tiers. -/
theorem c2_witness :
    (([1, 2, 3] : List ℕ).getLast? = some 3) ∧
    get_latest_weather (Except.ok ⟨[1, 2, 3]⟩)
      (Except.error PyErr.fetchErr : Except PyErr (ObsPayload ℕ)) = some 3 ∧
    tierLatest (Except.ok (⟨[]⟩ : ObsPayload ℕ)) = none ∧
    get_latest_weather (Except.ok (⟨[]⟩ : ObsPayload ℕ))
      (Except.error PyErr.fetchErr) = none := by
  refine ⟨by decide, c2_latest_weather_tiering.1 ℕ ⟨[1, 2, 3]⟩ _ 3 (by decide), rfl,
    c2_latest_weather_tiering.2.2.2.2 ℕ _ _ rfl rfl⟩

/-- Counterexample to C3 as stated: for the parameter choice "9", which is
not a key of the parameter table, format_weather_data raises (the except
handler itself subscripts the table and the KeyError escapes), so the
function does not hold for every parameter choice. -/
theorem c3_counterexample :
    format_weather_data (fun _ => "") ⟨some 0, some (ObsValue.nonCoercible "x")⟩ "9" =
      Except.error PyErr.keyErr := rfl

/-- Claim C3 (amended: restricted to parameter choices that are keys of the
parameter table): format_weather_data renders the local timestamp of the
epoch-millisecond date followed by the value with one decimal for °C, m/s
and mm, zero decimals for hPa, the raw value when float coercion fails,
and the unit; it never raises, and on a missing date or value field it
falls back to printing the raw fields; 21.456 renders as 21.5 and 1013.7
renders as 1014. -/
theorem c3_format_weather_amended :
    (∀ (fmtLocal : ℚ → String) (data : ObsRecord) (choice : String) (p : ObsParam),
      obsParameters choice = some p →
      isOk (format_weather_data fmtLocal data choice) = true ∧
      (∀ d q raw, data.date = some d → data.value = some (ObsValue.coercible q raw) →
        format_weather_data fmtLocal data choice =
          Except.ok (fmtLocal ((d : ℚ) / 1000) ++ ": " ++
            (if p.unit = "°C" ∨ p.unit = "m/s" ∨ p.unit = "mm" then pyFmtFixed1 q
             else if p.unit = "hPa" then pyFmtFixed0 q
             else pyStrNum q) ++ " " ++ p.unit)) ∧
      (∀ d raw, data.date = some d → data.value = some (ObsValue.nonCoercible raw) →
        format_weather_data fmtLocal data choice =
          Except.ok (fmtLocal ((d : ℚ) / 1000) ++ ": " ++ raw ++ " " ++ p.unit)) ∧
      (data.date = none ∨ data.value = none →
        format_weather_data fmtLocal data choice = Except.ok (fallbackText data p))) ∧
    pyFmtFixed1 (21.456 : ℚ) = "21.5" ∧
    pyFmtFixed0 (1013.7 : ℚ) = "1014" := by
  refine ⟨?_, ?_, ?_⟩
  · intro fmtLocal data choice p hp
    refine ⟨?_, ?_, ?_, ?_⟩
    · cases hdate : data.date with
      | none => simp [isOk, format_weather_data, hdate, hp]
      | some d =>
        cases hval : data.value with
        | none => simp [isOk, format_weather_data, hdate, hval, hp]
        | some v =>
          cases v with
          | coercible q raw => simp [isOk, format_weather_data, hdate, hval, hp]
          | nonCoercible raw => simp [isOk, format_weather_data, hdate, hval, hp]
    · intro d q raw hdate hval
      simp [format_weather_data, hdate, hval, hp]
    · intro d raw hdate hval
      simp [format_weather_data, hdate, hval, hp]
    · intro hmiss
      rcases hmiss with h | h
      · simp [format_weather_data, h, hp]
      · cases hdate : data.date with
        | none => simp [format_weather_data, hdate, hp]
        | some d => simp [format_weather_data, hdate, h, hp]
  · have h1 : (21.456 : ℚ).num = 2682 := by norm_num
    have h2 : ((21.456 : ℚ).den : ℤ) = 125 := by norm_num
    rw [pyFmtFixed1, h1, h2]
    decide
  · have h1 : (1013.7 : ℚ).num = 10137 := by norm_num
    have h2 : ((1013.7 : ℚ).den : ℤ) = 10 := by norm_num
    rw [pyFmtFixed0, h1, h2]
    decide

/-- Witness for C3 at the temperature choice and a concrete record. -/
theorem c3_witness :
    obsParameters "1" =
      some ⟨"Lufttemperatur momentanvärde, 1 gång/tim", "2", "°C", "Temperature"⟩ ∧
    pyFmtFixed1 (21.456 : ℚ) = "21.5" ∧
    isOk (format_weather_data (fun _ => "")
      ⟨some 0, some (ObsValue.coercible 21.456 "21.456")⟩ "1") = true := by
  refine ⟨rfl, c3_format_weather_amended.2.1, ?_⟩
  exact (c3_format_weather_amended.1 (fun _ => "")
    ⟨some 0, some (ObsValue.coercible 21.456 "21.456")⟩ "1"
    ⟨"Lufttemperatur momentanvärde, 1 gång/tim", "2", "°C", "Temperature"⟩ rfl).1

theorem lookup_cons_eq (tl : List (String × String)) (k v : String) :
    ((k, v) :: tl).lookup k = some v := by
  simp [List.lookup]

theorem lookup_cons_ne (tl : List (String × String)) (k k1 v1 : String) (h : k ≠ k1) :
    ((k1, v1) :: tl).lookup k = tl.lookup k := by
  simp [List.lookup, beq_eq_false_iff_ne.mpr h]

theorem lookup_eq_none_iff_keys (l : List (String × String)) (k : String) :
    l.lookup k = none ↔ k ∉ l.map Prod.fst := by
  induction l with
  | nil => simp
  | cons hd tl ih =>
    obtain ⟨k1, v1⟩ := hd
    by_cases h : k = k1
    · subst h
      simp [lookup_cons_eq]
    · rw [lookup_cons_ne tl k k1 v1 h]
      simp [ih, h]

theorem any_key_eq_false_iff (l : List (String × String)) (k : String) :
    l.any (fun kv => kv.1 == k) = false ↔ l.lookup k = none := by
  rw [lookup_eq_none_iff_keys]
  rw [← Bool.not_eq_true, List.any_eq_true]
  constructor
  · intro h hmem
    obtain ⟨⟨k1, v1⟩, hm, hk⟩ := List.mem_map.mp hmem
    exact h ⟨(k1, v1), hm, by simpa using hk⟩
  · intro h hex
    obtain ⟨⟨k1, v1⟩, hm, hk⟩ := hex
    exact h (List.mem_map.mpr ⟨(k1, v1), hm, by simpa using hk⟩)

theorem lookup_eraseP_self (l : List (String × String)) (k : String)
    (hnd : (l.map Prod.fst).Nodup) :
    (l.eraseP (fun kv => kv.1 == k)).lookup k = none := by
  induction l with
  | nil => simp
  | cons hd tl ih =>
    obtain ⟨k1, v1⟩ := hd
    simp only [List.map_cons, List.nodup_cons] at hnd
    by_cases h : k1 = k
    · subst h
      simp only [List.eraseP_cons, beq_self_eq_true, cond_true]
      exact (lookup_eq_none_iff_keys tl k1).mpr hnd.1
    · simp only [List.eraseP_cons, beq_eq_false_iff_ne.mpr h, cond_false]
      rw [lookup_cons_ne _ k k1 v1 (Ne.symm h)]
      exact ih hnd.2

theorem lookup_eraseP_ne (l : List (String × String)) (k k2 : String) (h : k2 ≠ k) :
    (l.eraseP (fun kv => kv.1 == k)).lookup k2 = l.lookup k2 := by
  induction l with
  | nil => simp
  | cons hd tl ih =>
    obtain ⟨k1, v1⟩ := hd
    by_cases h1 : k1 = k
    · subst h1
      simp only [List.eraseP_cons, beq_self_eq_true, cond_true]
      rw [lookup_cons_ne tl k2 k1 v1 h]
    · simp only [List.eraseP_cons, beq_eq_false_iff_ne.mpr h1, cond_false]
      by_cases h2 : k2 = k1
      · subst h2
        rw [lookup_cons_eq, lookup_cons_eq]
      · rw [lookup_cons_ne _ k2 k1 v1 h2, lookup_cons_ne tl k2 k1 v1 h2]
        exact ih

theorem lookup_append_self (l : List (String × String)) (k : String) (v : String)
    (h : l.lookup k = none) : (l ++ [(k, v)]).lookup k = some v := by
  induction l with
  | nil => simp [lookup_cons_eq]
  | cons hd tl ih =>
    obtain ⟨k1, v1⟩ := hd
    by_cases h1 : k = k1
    · subst h1
      rw [lookup_cons_eq] at h
      cases h
    · rw [lookup_cons_ne tl k k1 v1 h1] at h
      rw [List.cons_append, lookup_cons_ne _ k k1 v1 h1]
      exact ih h

theorem lookup_append_ne (l : List (String × String)) (k k2 : String) (v : String)
    (h : k2 ≠ k) : (l ++ [(k, v)]).lookup k2 = l.lookup k2 := by
  induction l with
  | nil => simp [lookup_cons_ne _ k2 k v h]
  | cons hd tl ih =>
    obtain ⟨k1, v1⟩ := hd
    by_cases h1 : k2 = k1
    · subst h1
      rw [List.cons_append, lookup_cons_eq, lookup_cons_eq]
    · rw [List.cons_append, lookup_cons_ne _ k2 k1 v1 h1, lookup_cons_ne tl k2 k1 v1 h1]
      exact ih

theorem keys_nodup_append (l : List (String × String)) (k v : String)
    (hnd : (l.map Prod.fst).Nodup) (hmem : k ∉ l.map Prod.fst) :
    ((l ++ [(k, v)]).map Prod.fst).Nodup := by
  rw [List.map_append]
  refine List.Nodup.append hnd (by simp) ?_
  intro a ha hb
  simp at hb
  subst hb
  exact hmem ha

/-- Counterexample to C4 as stated: with a favorites mapping that stores
a stale display name for a listed station id, toggling that id twice does
not return the mapping to its prior state: the stored name is replaced by
the displayed station name. -/
theorem c4_counterexample :
    (toggle_favorite [⟨"1", "New", true, 0, 0, 0⟩]
        (toggle_favorite [⟨"1", "New", true, 0, 0, 0⟩] [("1", "Old")] "1").1 "1").1.lookup "1" ≠
      ([("1", "Old")] : List (String × String)).lookup "1" := by decide

/-- Claim C4 (amended: the double-toggle restoration holds as equality of
key lookups, and only when the toggled id is absent from the favorites or
stored under exactly the displayed station name — otherwise the stored name
is replaced): for an id matching a displayed station, one toggle removes
the id when present and otherwise appends it with the station's display
name, each toggle persists (save_favorites is called), and toggling twice
restores every key's binding. -/
theorem c4_toggle_pair_amended :
    ∀ (stations : List Station) (favs : List (String × String)) (favId : String) (st : Station),
      stations.find? (fun s => s.key == favId) = some st →
      (favs.map Prod.fst).Nodup →
      (toggle_favorite stations favs favId).2 = true ∧
      (toggle_favorite stations (toggle_favorite stations favs favId).1 favId).2 = true ∧
      (favs.lookup favId = none →
        (toggle_favorite stations favs favId).1 = favs ++ [(favId, st.name)]) ∧
      (∀ v, favs.lookup favId = some v →
        (toggle_favorite stations favs favId).1.lookup favId = none) ∧
      (∀ k, k ≠ favId →
        (toggle_favorite stations favs favId).1.lookup k = favs.lookup k) ∧
      ((favs.lookup favId = none ∨ favs.lookup favId = some st.name) →
        ∀ k, (toggle_favorite stations
          (toggle_favorite stations favs favId).1 favId).1.lookup k = favs.lookup k) := by
  intro stations favs favId st hf hnd
  by_cases hany : favs.any (fun kv => kv.1 == favId) = true
  · -- the id is currently a favorite: the first toggle erases it
    have ht1 : toggle_favorite stations favs favId =
        (favs.eraseP (fun kv => kv.1 == favId), true) := by
      simp [toggle_favorite, hf, hany]
    have hlook : favs.lookup favId ≠ none := by
      intro hnone
      rw [← any_key_eq_false_iff] at hnone
      rw [hany] at hnone
      cases hnone
    have herased : (favs.eraseP (fun kv => kv.1 == favId)).lookup favId = none :=
      lookup_eraseP_self favs favId hnd
    have hany2 : (favs.eraseP (fun kv => kv.1 == favId)).any (fun kv => kv.1 == favId) = false :=
      (any_key_eq_false_iff _ favId).mpr herased
    have ht2 : toggle_favorite stations (favs.eraseP (fun kv => kv.1 == favId)) favId =
        (favs.eraseP (fun kv => kv.1 == favId) ++ [(favId, st.name)], true) := by
      simp [toggle_favorite, hf, hany2]
    refine ⟨by rw [ht1], by rw [ht1]; rw [ht2], ?_, ?_, ?_, ?_⟩
    · intro hnone; exact absurd hnone hlook
    · intro v _; rw [ht1]; exact herased
    · intro k hk; rw [ht1]; exact lookup_eraseP_ne favs favId k hk
    · intro hst k
      rcases hst with hnone | hname
      · exact absurd hnone hlook
      · rw [ht1]
        rw [ht2]
        by_cases hk : k = favId
        · subst hk
          rw [lookup_append_self _ _ _ herased, hname]
        · rw [lookup_append_ne _ _ _ _ hk, lookup_eraseP_ne favs favId k hk]
  · -- the id is not yet a favorite: the first toggle appends it
    have hany' : favs.any (fun kv => kv.1 == favId) = false := by
      cases h : favs.any (fun kv => kv.1 == favId)
      · rfl
      · exact absurd h hany
    have hlook : favs.lookup favId = none := (any_key_eq_false_iff favs favId).mp hany'
    have hkeys : favId ∉ favs.map Prod.fst := (lookup_eq_none_iff_keys favs favId).mp hlook
    have ht1 : toggle_favorite stations favs favId =
        (favs ++ [(favId, st.name)], true) := by
      simp [toggle_favorite, hf, hany']
    have happ : (favs ++ [(favId, st.name)]).lookup favId = some st.name :=
      lookup_append_self favs favId st.name hlook
    have hany2 : (favs ++ [(favId, st.name)]).any (fun kv => kv.1 == favId) = true := by
      cases h : (favs ++ [(favId, st.name)]).any (fun kv => kv.1 == favId)
      · rw [any_key_eq_false_iff, happ] at h
        cases h
      · rfl
    have ht2 : toggle_favorite stations (favs ++ [(favId, st.name)]) favId =
        ((favs ++ [(favId, st.name)]).eraseP (fun kv => kv.1 == favId), true) := by
      simp [toggle_favorite, hf, hany2]
    have hnd2 : ((favs ++ [(favId, st.name)]).map Prod.fst).Nodup :=
      keys_nodup_append favs favId st.name hnd hkeys
    refine ⟨by rw [ht1], by rw [ht1]; rw [ht2], ?_, ?_, ?_, ?_⟩
    · intro _; rw [ht1]
    · intro v hv; rw [hv] at hlook; cases hlook
    · intro k hk; rw [ht1]; exact lookup_append_ne favs favId k st.name hk
    · intro _ k
      rw [ht1, ht2]
      by_cases hk : k = favId
      · subst hk
        rw [lookup_eraseP_self _ _ hnd2, hlook]
      · rw [lookup_eraseP_ne _ _ _ hk, lookup_append_ne favs favId k st.name hk]

/-- Witness for C4: toggling a listed id twice from the empty favorites
saves both times and restores the lookup of that id. -/
theorem c4_witness :
    ([c4st] : List Station).find? (fun s => s.key == "103080") = some c4st ∧
    (([] : List (String × String)).map Prod.fst).Nodup ∧
    (toggle_favorite [c4st] [] "103080").2 = true ∧
    (toggle_favorite [c4st] (toggle_favorite [c4st] [] "103080").1 "103080").2 = true ∧
    (toggle_favorite [c4st]
      (toggle_favorite [c4st] [] "103080").1 "103080").1.lookup "103080" =
      ([] : List (String × String)).lookup "103080" := by
  have h := c4_toggle_pair_amended [c4st] [] "103080" c4st (by decide) (by simp)
  exact ⟨by decide, by simp, h.1, h.2.1, h.2.2.2.2.2 (Or.inl rfl) "103080"⟩

/-- Claim C10: an id matching no displayed station is rejected: the toggle
leaves the favorites unchanged and does not save, even when the id is
already present in the favorites mapping. -/
theorem c10_toggle_rejects_unlisted :
    ∀ (stations : List Station) (favs : List (String × String)) (favId : String),
      (∀ s ∈ stations, s.key ≠ favId) →
      toggle_favorite stations favs favId = (favs, false) := by
  intro stations favs favId h
  have hf : stations.find? (fun s => s.key == favId) = none :=
    List.find?_eq_none.mpr (fun s hs => by simpa using h s hs)
  simp [toggle_favorite, hf]

/-- Witness for C10: an unlisted id that is nonetheless a favorite is
rejected with no state change and no save. -/
theorem c10_witness :
    (∀ s ∈ ([c10st] : List Station), s.key ≠ "99999") ∧
    toggle_favorite [c10st] [("99999", "Ghost")] "99999" = ([("99999", "Ghost")], false) :=
  ⟨by decide, c10_toggle_rejects_unlisted _ _ _ (by decide)⟩

theorem formatAnalysisSteps_ok_of_nonempty {DT : Type} (parseTime : String → DT)
    (pname punit : String) :
    ∀ steps : List TimeStep,
      steps.all (fun ts =>
        match ts.parameters.find? (fun e => e.name == pname) with
        | some p => !p.values.isEmpty
        | none => true) = true →
      formatAnalysisSteps parseTime pname punit steps =
        Except.ok (steps.filterMap (fun ts =>
          (ts.parameters.find? (fun e => e.name == pname)).bind (fun p =>
            p.values.head?.map (fun v =>
              ⟨parseTime (replaceZulu ts.validTime), v, punit⟩)))) := by
  intro steps
  induction steps with
  | nil => intro _; rfl
  | cons ts rest ih
  =>
    intro hall
    rw [List.all_cons, Bool.and_eq_true] at hall
    cases hf : ts.parameters.find? (fun e => e.name == pname) with
    | none =>
      rw [hf] at hall
      simp only [formatAnalysisSteps, hf]
      rw [ih hall.2]
      simp [List.filterMap_cons, hf]
    | some p =>
      rw [hf] at hall
      have h1 : p.values.isEmpty = false := by simpa using hall.1
      have hne : p.values ≠ [] := by
        intro hnil
        rw [hnil] at h1
        simp at h1
      cases hv : p.values.head? with
      | none => exact absurd (List.head?_eq_none_iff.mp hv) hne
      | some v =>
        simp only [formatAnalysisSteps, hf, hv]
        rw [ih hall.2]
        simp [List.filterMap_cons, hf, hv, Except.map]

/-- Counterexample to C5 as stated: a timestep whose parameter list does
contain the chosen parameter but with an empty values array makes
format_analysis_data raise IndexError instead of emitting an entry for
that timestep, so it does not hold for every analysis response. -/
theorem c5_counterexample :
    format_analysis_data (fun s => s) c5empty "1" = Except.error PyErr.indexErr := rfl

/-- Claim C5 (amended: provided every matching parameter entry of the walked
timesteps has a non-empty values array): format_analysis_data emits one
timestamp/value/unit entry per timestep whose parameter list contains an
entry named like the chosen parameter, taking its first value and the
catalog unit, silently skipping the other timesteps; the concrete
five-timestep series with exactly one timestep lacking t yields four
entries. -/
theorem c5_format_analysis_amended :
    (∀ (DT : Type) (parseTime : String → DT) (data : AnalysisData) (choice : String)
      (pinfo : AnaParam),
      anaParameters choice = some pinfo →
      data.timeSeries.all (fun ts =>
        match ts.parameters.find? (fun e => e.name == pinfo.name) with
        | some p => !p.values.isEmpty
        | none => true) = true →
      format_analysis_data parseTime data choice =
        Except.ok (data.timeSeries.filterMap (fun ts =>
          (ts.parameters.find? (fun e => e.name == pinfo.name)).bind (fun p =>
            p.values.head?.map (fun v =>
              ⟨parseTime (replaceZulu ts.validTime), v, pinfo.unit⟩))))) ∧
    (format_analysis_data (fun s => s) c5scenario "1").map List.length = Except.ok 4 := by
  constructor
  · intro DT parseTime data choice pinfo h hall
    simp only [format_analysis_data, h]
    exact formatAnalysisSteps_ok_of_nonempty parseTime pinfo.name pinfo.unit
      data.timeSeries hall
  · rfl

/-- Witness for C5 at the five-timestep scenario. -/
theorem c5_witness :
    anaParameters "1" = some ⟨"t", "Temperature", "°C", "hl", 2⟩ ∧
    c5scenario.timeSeries.all (fun ts =>
      match ts.parameters.find? (fun e => e.name == "t") with
      | some p => !p.values.isEmpty
      | none => true) = true ∧
    format_analysis_data (fun s => s) c5scenario "1" =
      Except.ok (c5scenario.timeSeries.filterMap (fun ts =>
        (ts.parameters.find? (fun e => e.name == "t")).bind (fun p =>
          p.values.head?.map (fun v =>
            ⟨(fun s => s) (replaceZulu ts.validTime), v, "°C"⟩)))) := by
  refine ⟨rfl, by decide, ?_⟩
  exact c5_format_analysis_amended.1 String (fun s => s) c5scenario "1"
    ⟨"t", "Temperature", "°C", "hl", 2⟩ rfl (by decide)

theorem forecastRows_length {DT : Type} (fmtTime : String → DT) :
    ∀ (steps : List TimeStep) (rows : List (DT × ℚ)),
      forecastRows fmtTime steps = Except.ok rows → rows.length = steps.length := by
  intro steps
  induction steps with
  | nil =>
    intro rows h
    cases h
    rfl
  | cons ts rest ih =>
    intro rows h
    simp only [forecastRows] at h
    cases he : extractTempValue ts with
    | error e => rw [he] at h; cases h
    | ok v =>
      rw [he] at h
      cases hr : forecastRows fmtTime rest with
      | error e => rw [hr] at h; cases h
      | ok l =>
        rw [hr] at h
        simp only [Except.map] at h
        cases h
        simp [ih l hr]

theorem forecastRows_stopIter {DT : Type} (fmtTime : String → DT) :
    ∀ (steps : List TimeStep) (ts : TimeStep), ts ∈ steps →
      ts.parameters.find? (fun p => p.name == "t") = none →
      steps.all (fun ts2 =>
        match ts2.parameters.find? (fun p => p.name == "t") with
        | some p => !p.values.isEmpty
        | none => true) = true →
      forecastRows fmtTime steps = Except.error PyErr.stopIter := by
  intro steps
  induction steps with
  | nil => simp
  | cons hd rest ih =>
    intro ts hmem hnone hall
    rw [List.all_cons, Bool.and_eq_true] at hall
    cases hf : hd.parameters.find? (fun p => p.name == "t") with
    | none =>
      simp [forecastRows, extractTempValue, hf]
    | some p =>
      rw [hf] at hall
      have h1 : p.values.isEmpty = false := by simpa using hall.1
      have hne : p.values ≠ [] := by
        intro hnil
        rw [hnil] at h1
        simp at h1
      cases hv : p.values.head? with
      | none => exact absurd (List.head?_eq_none_iff.mp hv) hne
      | some v =>
        have hts : ts ∈ rest := by
          rcases List.mem_cons.mp hmem with rfl | h
          · rw [hf] at hnone; cases hnone
          · exact h
        simp [forecastRows, extractTempValue, hf, hv, ih ts hts hnone hall.2, Except.map]

theorem forecastRows_fails_of_missing {DT : Type} (fmtTime : String → DT) :
    ∀ (steps : List TimeStep) (ts : TimeStep), ts ∈ steps →
      ts.parameters.find? (fun p => p.name == "t") = none →
      isOk (forecastRows fmtTime steps) = false := by
  intro steps
  induction steps with
  | nil => simp
  | cons hd rest ih =>
    intro ts hmem hnone
    cases he : extractTempValue hd with
    | error e => simp [forecastRows, he, isOk]
    | ok v =>
      have hts : ts ∈ rest := by
        rcases List.mem_cons.mp hmem with rfl | h
        · rw [extractTempValue, hnone] at he
          cases he
        · exact h
      have hrest := ih ts hts hnone
      cases hr : forecastRows fmtTime rest with
      | error e => simp [forecastRows, he, hr, isOk, Except.map]
      | ok l => rw [hr] at hrest; cases hrest

/-- Claim C6: the forecast display walks only the first 24 timesteps; when
a walked timestep has no parameter named t the walk fails (it does not
skip the timestep or substitute a default), and the failure is the lookup
error StopIteration whenever no walked t entry has an empty values array
(the one other failure mode, which is IndexError); a successful walk emits
one row per walked timestep. -/
theorem c6_forecast_first24_strict :
    (∀ (DT : Type) (fmtTime : String → DT) (l : List TimeStep),
      show_met_forecasts fmtTime ⟨l⟩ = show_met_forecasts fmtTime ⟨l.take 24⟩) ∧
    (∀ (DT : Type) (fmtTime : String → DT) (l : List TimeStep) (ts : TimeStep),
      ts ∈ l.take 24 →
      ts.parameters.find? (fun p => p.name == "t") = none →
      isOk (show_met_forecasts fmtTime ⟨l⟩) = false) ∧
    (∀ (DT : Type) (fmtTime : String → DT) (l : List TimeStep) (ts : TimeStep),
      ts ∈ l.take 24 →
      ts.parameters.find? (fun p => p.name == "t") = none →
      (l.take 24).all (fun ts2 =>
        match ts2.parameters.find? (fun p => p.name == "t") with
        | some p => !p.values.isEmpty
        | none => true) = true →
      show_met_forecasts fmtTime ⟨l⟩ = Except.error PyErr.stopIter) ∧
    (∀ (DT : Type) (fmtTime : String → DT) (l : List TimeStep) (rows : List (DT × ℚ)),
      show_met_forecasts fmtTime ⟨l⟩ = Except.ok rows →
      rows.length = (l.take 24).length) := by
  refine ⟨?_, ?_, ?_, ?_⟩
  · intro DT fmtTime l
    simp [show_met_forecasts, List.take_take]
  · intro DT fmtTime l ts hmem hnone
    exact forecastRows_fails_of_missing fmtTime (l.take 24) ts hmem hnone
  · intro DT fmtTime l ts hmem hnone hall
    exact forecastRows_stopIter fmtTime (l.take 24) ts hmem hnone hall
  · intro DT fmtTime l rows h
    exact forecastRows_length fmtTime (l.take 24) rows h

/-- Witness for C6: a single walked timestep with no t parameter makes the
display path fail with StopIteration. -/
theorem c6_witness :
    c6step ∈ ([c6step] : List TimeStep).take 24 ∧
    c6step.parameters.find? (fun p => p.name == "t") = none ∧
    (([c6step] : List TimeStep).take 24).all (fun ts2 =>
      match ts2.parameters.find? (fun p => p.name == "t") with
      | some p => !p.values.isEmpty
      | none => true) = true ∧
    show_met_forecasts (fun s => s) ⟨[c6step]⟩ = Except.error PyErr.stopIter := by
  refine ⟨by decide, rfl, by decide, ?_⟩
  exact c6_forecast_first24_strict.2.2.1 String (fun s => s) [c6step] c6step
    (by decide) rfl (by decide)

/-- Claim C7: get_manual_location only ever returns coordinates with the
latitude in [-90, 90] and the longitude in [-180, 180]; latitude 91 and
longitude -181 are rejected with a re-prompt while 57.69466 and 11.97973
are accepted; rejected inputs are retried without any limit (any number of
invalid lines is consumed without changing the outcome). -/
theorem c7_manual_location_validation :
    (∀ (inputs : List Inp) (lat lon : ℚ),
      get_manual_location inputs = some (lat, lon) →
      (-90 ≤ lat ∧ lat ≤ 90) ∧ (-180 ≤ lon ∧ lon ≤ 180)) ∧
    get_manual_location [Inp.num 91, Inp.num 57.69466, Inp.num 11.97973] =
      some (57.69466, 11.97973) ∧
    get_manual_location
      [Inp.num 57.69466, Inp.num (-181), Inp.num 57.69466, Inp.num 11.97973] =
      some (57.69466, 11.97973) ∧
    (∀ (n : ℕ) (rest : List Inp),
      get_manual_location (List.replicate n Inp.bad ++ rest) =
        get_manual_location rest) := by
  refine ⟨?_, ?_, ?_, ?_⟩
  · intro inputs
    induction inputs using get_manual_location.induct with
    | case1 =>
      intro lat lon h
      cases h
    | case2 rest ih =>
      intro lat lon h
      simp only [get_manual_location] at h
      exact ih lat lon h
    | case3 la hla =>
      intro lat lon h
      simp [get_manual_location, hla] at h
    | case4 la hla rest ih =>
      intro lat lon h
      simp only [get_manual_location, hla, and_self, if_true] at h
      exact ih lat lon h
    | case5 la hla lo rest hlo =>
      intro lat lon h
      simp [get_manual_location, hla, hlo] at h
      obtain ⟨h1, h2⟩ := h
      subst h1
      subst h2
      exact ⟨hla, hlo⟩
    | case6 la hla lo rest hlo ih =>
      intro lat lon h
      simp [get_manual_location, hla, hlo] at h
      exact ih lat lon h
    | case7 la rest hla ih =>
      intro lat lon h
      rw [get_manual_location.eq_def] at h
      simp only [hla, if_false] at h
      exact ih lat lon h
  · norm_num [get_manual_location]
  · norm_num [get_manual_location]
  · intro n rest
    induction n with
    | zero => rfl
    | succ m ih =>
      rw [List.replicate_succ, List.cons_append]
      simp only [get_manual_location]
      exact ih

/-- Witness for C7: a returned coordinate pair is in range. -/
theorem c7_witness :
    get_manual_location [Inp.num 57, Inp.num 11] = some (57, 11) ∧
    ((-90 ≤ (57 : ℚ) ∧ (57 : ℚ) ≤ 90) ∧ (-180 ≤ (11 : ℚ) ∧ (11 : ℚ) ≤ 180)) :=
  ⟨by decide, c7_manual_location_validation.1 [Inp.num 57, Inp.num 11] 57 11 (by decide)⟩

/-- Counterexample to C8 as stated: a response with the non-2xx status 304
passes raise_for_status (the requests library raises only for 400-599), so
a binary fetch of it succeeds instead of failing. -/
theorem c8_counterexample :
    ¬ (200 ≤ 304 ∧ 304 < 300) ∧
    fetch_data (HttpOutcome.response 304 "cached" (none : Option Unit)) true =
      (1, Except.ok (FetchResult.raw "cached")) :=
  ⟨by decide, rfl⟩

/-- Claim C8 (amended: the failing statuses are 400-599, the range
raise_for_status raises on, rather than all non-2xx statuses): fetch_data
performs a single GET with no retry; a transport failure or a 4xx/5xx
status fails with the error carrying the cause; otherwise it returns the
raw payload when the binary flag is set, and the parsed JSON value when it
is not (failing with a decode error on an unparsable body). -/
theorem c8_fetch_data_amended :
    ∀ (J : Type),
      (∀ (outcome : HttpOutcome J) (b : Bool), (fetch_data outcome b).1 = 1) ∧
      (∀ (msg : String) (b : Bool),
        fetch_data (HttpOutcome.transportFail msg : HttpOutcome J) b =
          (1, Except.error (FetchErr.transport msg))) ∧
      (∀ (status : ℕ) (content : String) (decoded : Option J) (b : Bool),
        400 ≤ status → status < 600 →
        fetch_data (HttpOutcome.response status content decoded) b =
          (1, Except.error (FetchErr.httpStatus status))) ∧
      (∀ (status : ℕ) (content : String) (decoded : Option J),
        ¬ (400 ≤ status ∧ status < 600) →
        fetch_data (HttpOutcome.response status content decoded) true =
          (1, Except.ok (FetchResult.raw content))) ∧
      (∀ (status : ℕ) (content : String) (j : J),
        ¬ (400 ≤ status ∧ status < 600) →
        fetch_data (HttpOutcome.response status content (some j)) false =
          (1, Except.ok (FetchResult.json j))) ∧
      (∀ (status : ℕ) (content : String),
        ¬ (400 ≤ status ∧ status < 600) →
        fetch_data (HttpOutcome.response status content (none : Option J)) false =
          (1, Except.error FetchErr.jsonDecode)) := by
  intro J
  refine ⟨?_, fun msg b => rfl, ?_, ?_, ?_, ?_⟩
  · intro outcome b
    cases outcome <;> rfl
  · intro status content decoded b h1 h2
    simp [fetch_data, raise_for_status, h1, h2]
  · intro status content decoded h
    simp [fetch_data, raise_for_status, h]
  · intro status content j h
    simp [fetch_data, raise_for_status, h]
  · intro status content h
    simp [fetch_data, raise_for_status, h]

/-- Witness for C8 at a 404 response. -/
theorem c8_witness :
    (400 ≤ 404 ∧ 404 < 600) ∧
    fetch_data (HttpOutcome.response 404 "" (none : Option Unit)) false =
      (1, Except.error (FetchErr.httpStatus 404)) :=
  ⟨by decide, (c8_fetch_data_amended Unit).2.2.1 404 "" none false (by decide) (by decide)⟩

end SMHI
